import Mathlib

/-!
Shallow embedding of the aqueduct-api event intake-and-drain pipeline.

The embedding covers, faithfully to the TypeScript/JavaScript sources:
* `src/lib/notion.ts` — `hmacSha256Hex` (a full HMAC-SHA-256 over UTF-8
  bytes, as `crypto.createHmac("sha256", …)` computes it) and
  `timingSafeEqualHex` (hex decoding with Node `Buffer.from(·, "hex")`
  truncation semantics, length check, byte comparison);
* `src/lib/ratelimit.ts` — the blocking `throttleOrWait` loop and the
  unconfigured (no-Redis) limiter;
* `src/lib/verificationToken.ts` — the two-key (value + used-marker)
  one-time token channel over a TTL key-value store;
* the webhook route (`POST`) — bootstrap echo, signature gate, envelope
  parsing, dedup check, queue row creation, property stripping;
* `scripts/events-queue-worker.mjs` — `processEvent`, the dedup re-check
  with its stable sort by `created_time`, and the per-row error handling
  of `main`.

JavaScript strings are modelled as Lean `String` (code points; all inputs
of interest are within the BMP so `slice` offsets agree), JS `===` as
decidable equality, fetch failures as an explicit failure oracle, and the
external tabular store as a list of rows touched only through the same
query/patch shapes the source issues.
-/

/-! ## JavaScript string primitives -/

/-- JS `s.slice(0, n)` (also `s.slice(0, n)` for `n ≥ 0`). -/
def jsSlice0 (s : String) (n : Nat) : String := ⟨s.data.take n⟩

/-- JS `s.slice(-n)` for `n > 0`: the last `n` characters (the whole
string when it is shorter than `n`). -/
def jsSliceLast (s : String) (n : Nat) : String := ⟨s.data.drop (s.data.length - n)⟩

/-- JS `s.trim()`: strip whitespace from both ends (structurally, so it
evaluates by kernel reduction). -/
def jsTrim (s : String) : String :=
  ⟨((s.data.dropWhile Char.isWhitespace).reverse.dropWhile Char.isWhitespace).reverse⟩

/-! ## Hex encoding / decoding (Node `Buffer` semantics) -/

/-- Lowercase hex digit for a nibble. -/
def nibbleChar (n : Nat) : Char :=
  (("0123456789abcdef" : String).data.getD n '0')

/-- Lowercase hex rendering of a byte list (`digest("hex")`). -/
def toHexLower (bs : List Nat) : String :=
  ⟨bs.flatMap (fun b => [nibbleChar (b / 16 % 16), nibbleChar (b % 16)])⟩

/-- Value of a hex digit, accepting both cases (as `Buffer.from(·, "hex")`
does). -/
def hexDigitVal (c : Char) : Option Nat :=
  if '0' ≤ c ∧ c ≤ '9' then some (c.toNat - '0'.toNat)
  else if 'a' ≤ c ∧ c ≤ 'f' then some (c.toNat - 'a'.toNat + 10)
  else if 'A' ≤ c ∧ c ≤ 'F' then some (c.toNat - 'A'.toNat + 10)
  else none

/-- Node `Buffer.from(s, "hex")`: decodes two characters per byte and
truncates at the first invalid pair (a trailing lone digit is dropped). -/
def nodeHexDecodeAux : List Char → List Nat
  | c1 :: c2 :: rest =>
    match hexDigitVal c1, hexDigitVal c2 with
    | some hi, some lo => (16 * hi + lo) :: nodeHexDecodeAux rest
    | _, _ => []
  | _ => []

def nodeHexDecode (s : String) : List Nat := nodeHexDecodeAux s.data

/-- `timingSafeEqualHex` from `src/lib/notion.ts`: decode both strings as
hex, reject on length mismatch, otherwise compare the bytes
(`crypto.timingSafeEqual`; constant-time in the source, pure equality
here). -/
def timingSafeEqualHex (a b : String) : Bool :=
  let ab := nodeHexDecode a
  let bb := nodeHexDecode b
  if ab.length ≠ bb.length then false else ab == bb

/-- Uppercase a hex string (test-input constructor for the signature
claims; not part of the source). -/
def upperHexChar (c : Char) : Char :=
  if 'a' ≤ c ∧ c ≤ 'f' then Char.ofNat (c.toNat - 32) else c

def upperHex (s : String) : String := ⟨s.data.map upperHexChar⟩

/-! ## UTF-8 and SHA-256 (what `crypto.createHmac("sha256", …)` computes) -/

/-- UTF-8 encoding of one code point. -/
def utf8EncodeChar (c : Char) : List Nat :=
  let n := c.toNat
  if n < 0x80 then [n]
  else if n < 0x800 then [0xC0 ||| (n >>> 6), 0x80 ||| (n &&& 0x3F)]
  else if n < 0x10000 then
    [0xE0 ||| (n >>> 12), 0x80 ||| ((n >>> 6) &&& 0x3F), 0x80 ||| (n &&& 0x3F)]
  else
    [0xF0 ||| (n >>> 18), 0x80 ||| ((n >>> 12) &&& 0x3F),
     0x80 ||| ((n >>> 6) &&& 0x3F), 0x80 ||| (n &&& 0x3F)]

def utf8Bytes (s : String) : List Nat := s.data.flatMap utf8EncodeChar

def add32 (x y : Nat) : Nat := (x + y) % 4294967296

def rotr32 (n w : Nat) : Nat := ((w >>> n) ||| (w <<< (32 - n))) % 4294967296

def shaBigSigma0 (w : Nat) : Nat := rotr32 2 w ^^^ rotr32 13 w ^^^ rotr32 22 w

def shaBigSigma1 (w : Nat) : Nat := rotr32 6 w ^^^ rotr32 11 w ^^^ rotr32 25 w

def shaSmallSigma0 (w : Nat) : Nat := rotr32 7 w ^^^ rotr32 18 w ^^^ (w >>> 3)

def shaSmallSigma1 (w : Nat) : Nat := rotr32 17 w ^^^ rotr32 19 w ^^^ (w >>> 10)

def shaChoose (e f g : Nat) : Nat := (e &&& f) ^^^ ((e ^^^ 0xFFFFFFFF) &&& g)

def shaMajority (a b c : Nat) : Nat := (a &&& b) ^^^ (a &&& c) ^^^ (b &&& c)

/-- The eight 32-bit working variables of SHA-256. -/
structure Sha2State where
  a : Nat
  b : Nat
  c : Nat
  d : Nat
  e : Nat
  f : Nat
  g : Nat
  h : Nat
deriving Repr, DecidableEq

def sha256InitState : Sha2State :=
  ⟨1779033703, 3144134277, 1013904242, 2773480762,
   1359893119, 2600822924, 528734635, 1541459225⟩

/-- The 64 SHA-256 round constants (the fractional parts of the cube
roots of the first 64 primes), written in decimal. -/
def sha256K : List Nat :=
  [1116352408, 1899447441, 3049323471, 3921009573, 961987163, 1508970993,
   2453635748, 2870763221, 3624381080, 310598401, 607225278, 1426881987,
   1925078388, 2162078206, 2614888103, 3248222580, 3835390401, 4022224774,
   264347078, 604807628, 770255983, 1249150122, 1555081692, 1996064986,
   2554220882, 2821834349, 2952996808, 3210313671, 3336571891, 3584528711,
   113926993, 338241895, 666307205, 773529912, 1294757372, 1396182291,
   1695183700, 1986661051, 2177026350, 2456956037, 2730485921, 2820302411,
   3259730800, 3345764771, 3516065817, 3600352804, 4094571909, 275423344,
   430227734, 506948616, 659060556, 883997877, 958139571, 1322822218,
   1537002063, 1747873779, 1955562222, 2024104815, 2227730452, 2361852424,
   2428436474, 2756734187, 3204031479, 3329325298]

/-- Extend a 16-word block to the 64-word message schedule (appending
`count` further words). -/
def shaExtend (w : List Nat) : Nat → List Nat
  | 0 => w
  | count + 1 =>
    let n := w.length
    let next := add32
      (add32 (shaSmallSigma1 (w.getD (n - 2) 0)) (w.getD (n - 7) 0))
      (add32 (shaSmallSigma0 (w.getD (n - 15) 0)) (w.getD (n - 16) 0))
    shaExtend (w ++ [next]) count

/-- One SHA-256 round, consuming a `(k, w)` pair. -/
def shaRound (s : Sha2State) (kw : Nat × Nat) : Sha2State :=
  let t1 := add32 s.h (add32 (shaBigSigma1 s.e) (add32 (shaChoose s.e s.f s.g) (add32 kw.1 kw.2)))
  let t2 := add32 (shaBigSigma0 s.a) (shaMajority s.a s.b s.c)
  ⟨add32 t1 t2, s.a, s.b, s.c, add32 s.d t1, s.e, s.f, s.g⟩

/-- Compress one 16-word block into the running state. -/
def sha256Compress (st : Sha2State) (block : List Nat) : Sha2State :=
  let w := shaExtend block 48
  let r := (sha256K.zip w).foldl shaRound st
  ⟨add32 st.a r.a, add32 st.b r.b, add32 st.c r.c, add32 st.d r.d,
   add32 st.e r.e, add32 st.f r.f, add32 st.g r.g, add32 st.h r.h⟩

/-- Big-endian 8-byte encoding of the bit length. -/
def lenBytes8 (n : Nat) : List Nat :=
  [n >>> 56 % 256, n >>> 48 % 256, n >>> 40 % 256, n >>> 32 % 256,
   n >>> 24 % 256, n >>> 16 % 256, n >>> 8 % 256, n % 256]

/-- SHA-256 padding: `0x80`, zeros to 56 mod 64, then the bit length. -/
def sha256Pad (ms : List Nat) : List Nat :=
  let zeros := (119 - ms.length % 64) % 64
  ms ++ [0x80] ++ List.replicate zeros 0 ++ lenBytes8 (ms.length * 8)

/-- Split a byte list into chunks of `k` (fueled by the list length). -/
def chunksAux (k : Nat) : Nat → List Nat → List (List Nat)
  | 0, _ => []
  | _, [] => []
  | fuel + 1, l => l.take k :: chunksAux k fuel (l.drop k)

def chunksOf (k : Nat) (l : List Nat) : List (List Nat) := chunksAux k l.length l

/-- Big-endian word from up to four bytes. -/
def wordOfBytes (bs : List Nat) : Nat :=
  (bs.getD 0 0 <<< 24) ||| (bs.getD 1 0 <<< 16) ||| (bs.getD 2 0 <<< 8) ||| bs.getD 3 0

def blockWords (block : List Nat) : List Nat := (chunksOf 4 block).map wordOfBytes

def wordBytes (w : Nat) : List Nat := [w >>> 24 % 256, w >>> 16 % 256, w >>> 8 % 256, w % 256]

def shaStateBytes (s : Sha2State) : List Nat :=
  wordBytes s.a ++ wordBytes s.b ++ wordBytes s.c ++ wordBytes s.d ++
  wordBytes s.e ++ wordBytes s.f ++ wordBytes s.g ++ wordBytes s.h

/-- SHA-256 of a byte list, as a 32-byte list. -/
def sha256Bytes (ms : List Nat) : List Nat :=
  shaStateBytes (((chunksOf 64 (sha256Pad ms)).map blockWords).foldl sha256Compress sha256InitState)

/-- HMAC-SHA-256 over byte lists (RFC 2104 with a 64-byte block). -/
def hmacSha256 (key msg : List Nat) : List Nat :=
  let k1 := if key.length > 64 then sha256Bytes key else key
  let k2 := k1 ++ List.replicate (64 - k1.length) 0
  sha256Bytes ((k2.map (fun b => b ^^^ 0x5c)) ++ sha256Bytes ((k2.map (fun b => b ^^^ 0x36)) ++ msg))

/-- `hmacSha256Hex` from `src/lib/notion.ts`:
`crypto.createHmac("sha256", secret).update(payload).digest("hex")` —
HMAC-SHA-256 over the UTF-8 bytes, rendered as lowercase hex. -/
def hmacSha256Hex (secret payload : String) : String :=
  toHexLower (hmacSha256 (utf8Bytes secret) (utf8Bytes payload))

/-! ## A small JSON value model

`JSON.parse` itself is a platform primitive; the handler receives the
parse result as an `Option Json` (`none` = the body did not parse). -/

inductive Json where
  | null : Json
  | bool (b : Bool) : Json
  | num (n : Int) : Json
  | str (s : String) : Json
  | obj (fields : List (String × Json)) : Json
deriving Repr

/-- JS property access `v?.k` on a parsed value. -/
def jsonLookup (j : Json) (k : String) : Option Json :=
  match j with
  | .obj fields => (fields.find? (fun kv => kv.1 == k)).map (fun kv => kv.2)
  | _ => none

/-- JS truthiness of a value. -/
def jsTruthy : Json → Bool
  | .null => false
  | .bool b => b
  | .num n => n != 0
  | .str s => s != ""
  | .obj _ => true

/-- JS truthiness of a possibly-absent value (`undefined` is falsy). -/
def jsTruthyOpt : Option Json → Bool
  | none => false
  | some j => jsTruthy j

/-- JS `String(v)` conversion (for the values this system feeds it). -/
def jsToString : Json → String
  | .null => "null"
  | .bool b => if b then "true" else "false"
  | .num n => toString n
  | .str s => s
  | .obj _ => "[object Object]"

/-- A string-typed envelope field (`evt.id`, `evt.type`, …; the handler
casts the parsed payload to `{id?: string, type?: string, …}`). -/
def jsonStrField (j : Json) (k : String) : Option String :=
  match jsonLookup j k with
  | some (.str s) => some s
  | _ => none

mutual

/-- `JSON.stringify` for the model (the exact rendering is irrelevant to
every claim; only its role as the stored payload text matters). -/
def jsonStringify : Json → String
  | .null => "null"
  | .bool b => if b then "true" else "false"
  | .num n => toString n
  | .str s => "\"" ++ s ++ "\""
  | .obj fields =>
    "\x7b" ++ String.intercalate "," (jsonStringifyFields fields) ++ "\x7d"

def jsonStringifyFields : List (String × Json) → List String
  | [] => []
  | (k, v) :: rest => ("\"" ++ k ++ "\":" ++ jsonStringify v) :: jsonStringifyFields rest

end

/-! ## Verification Token Channel (`src/lib/verificationToken.ts`)

The Upstash Redis backend is modelled as two TTL'd cells (the token key
and the used-marker key); `configured` is whether `UPSTASH_REDIS_REST_URL`
/ `UPSTASH_REDIS_REST_TOKEN` are present. Time is in seconds; a cell
`some (v, exp)` is readable at time `t` iff `t < exp`. -/

structure TokenChannel where
  configured : Bool
  tokenCell : Option (String × Nat)
  usedCell : Option (String × Nat)
deriving Repr, DecidableEq

/-- Read a TTL'd cell at time `t` (`redis.get`). -/
def cellGet (t : Nat) : Option (String × Nat) → Option String
  | some (v, exp) => if t < exp then some v else none
  | none => none

/-- `storeVerificationToken`: no-op when unconfigured; otherwise
`set KEY token ex 600` then `del USED_KEY`. -/
def storeVerificationToken (t : Nat) (token : String) (ch : TokenChannel) : TokenChannel :=
  if !ch.configured then ch
  else { ch with tokenCell := some (token, t + 600), usedCell := none }

/-- `consumeVerificationToken`: absent when unconfigured or already used
or no token; otherwise marks used (TTL 600), deletes the token, and
returns it. -/
def consumeVerificationToken (t : Nat) (ch : TokenChannel) : Option String × TokenChannel :=
  if !ch.configured then (none, ch)
  else
    match cellGet t ch.usedCell with
    | some _ => (none, ch)
    | none =>
      match cellGet t ch.tokenCell with
      | none => (none, ch)
      | some tok =>
        (some tok, { ch with usedCell := some ("1", t + 600), tokenCell := none })

/-! ## The Events Queue store

One row of the queue database, holding exactly the fields the webhook
route writes and the worker reads or patches. `created` models Notion's
intrinsic `created_time` timestamp string (ISO-8601, so `localeCompare`
order coincides with `≤` on the strings). -/

structure Row where
  id : String
  eventId : String
  created : String
  status : String
  needsReview : Bool
  log : String
  type : String
deriving Repr, DecidableEq

abbrev Store := List Row

/-! ## Webhook Receiver (the unnamed route file) -/

/-- `eventExists`: query the data source for rows whose `Event ID`
rich-text equals `eventId`, `page_size: 1`; true iff any result. -/
def eventExists (s : Store) (eventId : String) : Bool :=
  ((List.filter (fun r => r.eventId == eventId) s).take 1).length > 0

structure EventParams where
  type : String
  eventId : String
  objectType : Option String
  objectId : Option String
  sourceUrl : Option String
  payloadJson : String
deriving Repr, DecidableEq

/-- A Notion property value as the route writes them. -/
inductive PropValue where
  | title (content : String)
  | richText (content : String)
  | select (name : String)
  | url (u : String)
  | checkbox (b : Bool)
  | date (start : String)
deriving Repr, DecidableEq

/-- JS `x ? f x : undefined` on an optional string (empty string is
falsy). -/
def ifTruthyStr (o : Option String) (f : String → PropValue) : Option PropValue :=
  match o with
  | some s => if s == "" then none else some (f s)
  | none => none

/-- The `page.properties` object built by `writeEventToQueue`, before the
strip pass; `none` is JS `undefined`. -/
def buildEventProperties (p : EventParams) (now : String) : List (String × Option PropValue) :=
  let name := jsTrim (p.type ++ " • " ++ (p.objectType.getD "object") ++ ":" ++ (p.objectId.getD ""))
  [("Name", some (.title (jsSlice0 name 200))),
   ("Event ID", some (.richText p.eventId)),
   ("Type", some (.select p.type)),
   ("Notion object type", ifTruthyStr p.objectType .select),
   ("Notion object id", ifTruthyStr p.objectId .richText),
   ("Source URL", ifTruthyStr p.sourceUrl .url),
   ("Status", some (.select "New")),
   ("Needs human review", some (.checkbox false)),
   ("Payload (json)", some (.richText (jsSlice0 p.payloadJson 1900))),
   ("Created", some (.date now)),
   ("Scipio log",
     some (.richText ("Aqueduct: queued event " ++ p.eventId ++ " (" ++ p.type ++ ") at " ++ now)))]

/-- The strip pass: `if (v === undefined) delete props[k]`. -/
def stripUndefined (props : List (String × Option PropValue)) : List (String × Option PropValue) :=
  props.filter (fun kv => kv.2.isSome)

/-- The row the queue store materializes from the `POST /pages` request
issued by `writeEventToQueue` (fresh page id and `created_time` are
assigned by the store). -/
def writeEventToQueue (s : Store) (freshId : String) (p : EventParams) (now : String) : Store :=
  s ++ [{ id := freshId, eventId := p.eventId, created := now,
          status := "New", needsReview := false,
          log := "Aqueduct: queued event " ++ p.eventId ++ " (" ++ p.type ++ ") at " ++ now,
          type := p.type }]

structure WebhookConfig where
  webhookVerificationToken : Option String
  eventsQueueDbId : Option String
deriving Repr, DecidableEq

inductive WebhookResp where
  | echoToken (tok : Json)
  | missingSecret
  | invalidSignature
  | invalidJson
  | missingDb
  | missingEventId
  | dedupedOk
  | ok
deriving Repr

structure PostResult where
  resp : WebhookResp
  store : Store
  channel : TokenChannel
  logs : List String

/-- Does the route take the subscription-bootstrap branch?
(`parsed?.verification_token` is truthy). -/
def bootstrapTaken (parsed : Option Json) : Bool :=
  match parsed with
  | some p => jsTruthyOpt (jsonLookup p "verification_token")
  | none => false

/-- The redacted token the bootstrap branch logs:
`tok.length <= 12 ? tok : tok.slice(0, 8) + "…" + tok.slice(-4)`. -/
def redactedToken (tok : String) : String :=
  if tok.length ≤ 12 then tok else jsSlice0 tok 8 ++ "…" ++ jsSliceLast tok 4

/-- The webhook `POST` handler. `raw` is the raw body text, `parsed` the
result of `JSON.parse(raw)`, `sig` the `x-notion-signature` header
(`""` when absent), `freshId`/`now` the store-assigned page id and
timestamp, `t` the current time for the token channel, `s` the queue
store, `ch` the verification-token channel. -/
def postWebhook (cfg : WebhookConfig) (raw : String) (parsed : Option Json) (sig : String)
    (freshId now : String) (s : Store) (ch : TokenChannel) : PostResult :=
  -- 1) Subscription verification (one-time): echo the token, log a
  -- redacted form. (The source never calls storeVerificationToken here,
  -- so the channel is returned untouched.)
  if bootstrapTaken parsed then
    let tokJson := (jsonLookup ((parsed.getD .null)) "verification_token").getD .null
    let tok := jsToString tokJson
    { resp := .echoToken tokJson, store := s, channel := ch,
      logs := ["[notion] verification_token received: " ++ redactedToken tok] }
  else
    -- 2) Validate signature
    match cfg.webhookVerificationToken with
    | none => { resp := .missingSecret, store := s, channel := ch, logs := [] }
    | some secret =>
      let computed := hmacSha256Hex secret raw
      if sig = "" ∨ timingSafeEqualHex sig computed = false then
        { resp := .invalidSignature, store := s, channel := ch, logs := [] }
      else
        -- 3) Parse event payload
        match parsed with
        | none => { resp := .invalidJson, store := s, channel := ch, logs := [] }
        | some payload =>
          match cfg.eventsQueueDbId with
          | none => { resp := .missingDb, store := s, channel := ch, logs := [] }
          | some _ =>
            let eventId := jsonStrField payload "id"
            let type := (jsonStrField payload "type").getD "Other"
            let entity := jsonLookup payload "entity"
            let entityType := (entity.map (fun e => jsonStrField e "type")).join
            let entityId := (entity.map (fun e => jsonStrField e "id")).join
            match eventId with
            | none => { resp := .missingEventId, store := s, channel := ch, logs := [] }
            | some ev =>
              if ev = "" then { resp := .missingEventId, store := s, channel := ch, logs := [] }
              else
                -- 4) Deduplicate
                if eventExists s ev then
                  { resp := .dedupedOk, store := s, channel := ch, logs := [] }
                else
                  -- 5) Write to Events Queue
                  { resp := .ok,
                    store := writeEventToQueue s freshId
                      { type := type, eventId := ev, objectType := entityType,
                        objectId := entityId, sourceUrl := none,
                        payloadJson := jsonStringify payload } now,
                    channel := ch, logs := [] }

/-! ## Queue Drain Worker (`scripts/events-queue-worker.mjs`)

Notion fetch failures are modelled by an oracle giving, per page id and
per call site inside the per-row processing, whether that call throws and
with which stringified error. Call sites: 0 = the "In Progress" patch,
1 = the dedup query, 2 = the "Deduped" patch, 3 = the "Needs human
review" patch, 4 = the catch-block "Error" patch in `main`. A failing
call performs no store mutation. -/

structure FailOracle where
  fail : String → Nat → Option String

def noFail : FailOracle := ⟨fun _ _ => none⟩

/-- `updatePage`: PATCH the properties of the row with the given id. -/
def updatePage (s : Store) (pageId : String) (patch : Row → Row) : Store :=
  s.map (fun r => if r.id = pageId then patch r else r)

/-- `findByEventId`: query rows whose `Event ID` equals `eventId`,
`page_size: 10`. -/
def findByEventId (s : Store) (eventId : String) : List Row :=
  (List.filter (fun r => r.eventId == eventId) s).take 10

/-- `queryNewEvents`: rows with `Status = "New"`, sorted ascending by
`created_time`, `page_size` 25. -/
def queryNewEvents (s : Store) (pageSize : Nat := 25) : List Row :=
  (List.insertionSort (fun a b => a.created.data ≤ b.created.data)
    (List.filter (fun r => r.status == "New") s)).take pageSize

/-- `processEvent(page, dataSourceId)`: returns the store after the row's
processing together with `some err` if a call threw (the JS function
exits by return or by throw). `page` is the row as fetched by the batch
query (a snapshot; only its `id`, `Event ID` and `Type` are read). -/
def processEventR (orc : FailOracle) (page : Row) (s : Store) : Store × Option String :=
  match orc.fail page.id 0 with
  | some e => (s, some e)
  | none =>
    let s1 := updatePage s page.id (fun r => { r with status := "In Progress" })
    let finishNhr : Store × Option String :=
      match orc.fail page.id 3 with
      | some e => (s1, some e)
      | none =>
        (updatePage s1 page.id (fun r =>
          { r with status := "Needs human review", needsReview := true,
                   log := "Worker: no handler for type=" ++ page.type ++
                          ". Marked Needs human review." }), none)
    if jsTrim page.eventId = "" then finishNhr
    else
      match orc.fail page.id 1 with
      | some e => (s1, some e)
      | none =>
        let results := findByEventId s1 (jsTrim page.eventId)
        if results.length > 1 then
          let sorted := List.insertionSort (fun a b => a.created.data ≤ b.created.data) results
          let keeper := (sorted.head?.map (fun r => r.id)).getD ""
          if keeper ≠ "" ∧ keeper ≠ page.id then
            match orc.fail page.id 2 with
            | some e => (s1, some e)
            | none =>
              (updatePage s1 page.id (fun r =>
                { r with status := "Deduped", needsReview := false,
                         log := "Worker: deduped (keeper=" ++ keeper ++ ") for eventId=" ++
                                jsTrim page.eventId }), none)
          else finishNhr
        else finishNhr

/-- The catch block of `main`'s loop: best-effort patch to `Error`
(truncating the error text to 500 characters); a failure of this patch
itself is swallowed. -/
def handleRowFailure (orc : FailOracle) (page : Row) (e : String) (s : Store) : Store :=
  match orc.fail page.id 4 with
  | some _ => s
  | none =>
    updatePage s page.id (fun r =>
      { r with status := "Error", needsReview := true,
               log := "Worker: error: " ++ jsSlice0 e 500 })

/-- The `for (const page of results)` loop of `main`. -/
def runBatchAux (orc : FailOracle) : List Row → Store → Store
  | [], s => s
  | page :: rest, s =>
    let step := processEventR orc page s
    match step.2 with
    | none => runBatchAux orc rest step.1
    | some e => runBatchAux orc rest (handleRowFailure orc page e step.1)

/-- One worker run (`main`): fetch up to 25 `New` rows oldest-first, then
process each in order. -/
def runBatch (orc : FailOracle) (s : Store) : Store :=
  runBatchAux orc (queryNewEvents s) s

/-! ## Rate Limiter (`src/lib/ratelimit.ts`)

A limiter is modelled by the sequence of responses its counter backend
returns to successive `limit(key)` calls. `throttleOrWait` walks that
sequence: it returns on the first granted response and otherwise sleeps
`Math.max(250, (res.resetMs ?? now + 1000) - now)` and retries. The
model returns the list of sleeps performed and whether it returned
within the given response sequence. -/

structure LimitRes where
  ok : Bool
  resetMs : Option Int
deriving Repr, DecidableEq

/-- The `limit` result of `getLimiter` when no Redis backend is
configured: always `{ ok: true }`. -/
def noRedisLimitRes : LimitRes := { ok := true, resetMs := none }

/-- `throttleOrWait` over a response sequence, starting at time `now`
(milliseconds): returns `(sleeps, granted)`. Sleeping advances the
clock by the slept amount. -/
def throttleOrWaitAux : List LimitRes → Int → List Int × Bool
  | [], _ => ([], false)
  | res :: rest, now =>
    if res.ok then ([], true)
    else
      let waitMs := max 250 ((res.resetMs.getD (now + 1000)) - now)
      let next := throttleOrWaitAux rest (now + waitMs)
      (waitMs :: next.1, next.2)

/-! ## General lemmas about the embedded primitives -/

theorem toHexLower_length (bs : List Nat) : (toHexLower bs).length = 2 * bs.length := by
  induction bs with
  | nil => rfl
  | cons b rest ih =>
    simp only [toHexLower, List.flatMap_cons, String.length] at ih ⊢
    simp only [List.length_append, List.length_cons, List.length_nil] at ih ⊢
    omega

theorem shaStateBytes_length (s : Sha2State) : (shaStateBytes s).length = 32 := by
  simp [shaStateBytes, wordBytes]

theorem sha256Bytes_length (ms : List Nat) : (sha256Bytes ms).length = 32 := by
  unfold sha256Bytes
  exact shaStateBytes_length _

theorem hmacSha256Hex_length (k m : String) : (hmacSha256Hex k m).length = 64 := by
  unfold hmacSha256Hex hmacSha256
  rw [toHexLower_length, sha256Bytes_length]

theorem hmacSha256Hex_ne_empty (k m : String) : hmacSha256Hex k m ≠ "" := by
  intro h
  have := hmacSha256Hex_length k m
  rw [h] at this
  simp [String.length] at this

theorem timingSafeEqualHex_self (a : String) : timingSafeEqualHex a a = true := by
  simp [timingSafeEqualHex]

theorem timingSafeEqualHex_eq_true_iff (a b : String) :
    timingSafeEqualHex a b = true ↔ nodeHexDecode a = nodeHexDecode b := by
  unfold timingSafeEqualHex
  constructor
  · intro h
    by_cases hl : (nodeHexDecode a).length ≠ (nodeHexDecode b).length
    · simp [hl] at h
    · simp [hl] at h
      exact h
  · intro h
    simp [h]

theorem eventExists_eq_false (s : Store) (ev : String) (h : ∀ r ∈ s, r.eventId ≠ ev) :
    eventExists s ev = false := by
  have hf : List.filter (fun r => r.eventId == ev) s = [] := by
    rw [List.filter_eq_nil_iff]
    intro r hr
    simpa using h r hr
  simp [eventExists, hf]

theorem eventExists_eq_true (s : Store) (ev : String) (r : Row) (hr : r ∈ s)
    (he : r.eventId = ev) : eventExists s ev = true := by
  have hmem : r ∈ List.filter (fun r => r.eventId == ev) s := by
    rw [List.mem_filter]
    exact ⟨hr, by simp [he]⟩
  have hne : List.filter (fun r => r.eventId == ev) s ≠ [] := List.ne_nil_of_mem hmem
  have hpos : 0 < (List.filter (fun r => r.eventId == ev) s).length :=
    List.length_pos.mpr hne
  simp only [eventExists, List.length_take, decide_eq_true_eq, gt_iff_lt]
  omega

/-! ## C5 — verification-token one-time consumption -/

/-- C5: the verification-token channel delivers at most once: after
`store(token)` at time `t`, the first `consume()` at `t1` inside the
10-minute window returns the token; a second `consume()` at any later
`t2` returns absent; `consume()` with no stored token returns absent;
and `consume()` on an unconfigured backend returns absent (and, being a
total function, never errors). -/
theorem consume_at_most_once (ch : TokenChannel) (tok : String) (t t1 t2 : Nat)
    (hconf : ch.configured = true) (hwin : t1 < t + 600) (h12 : t1 ≤ t2) :
    (consumeVerificationToken t1 (storeVerificationToken t tok ch)).1 = some tok
    ∧ (consumeVerificationToken t2
        (consumeVerificationToken t1 (storeVerificationToken t tok ch)).2).1 = none
    ∧ (∀ (ch' : TokenChannel) (t' : Nat), ch'.tokenCell = none →
        (consumeVerificationToken t' ch').1 = none)
    ∧ (∀ (ch' : TokenChannel) (t' : Nat), ch'.configured = false →
        (consumeVerificationToken t' ch').1 = none)
  := by
  refine ⟨?_, ?_, ?_, ?_⟩
  · simp [storeVerificationToken, consumeVerificationToken, cellGet, hconf, hwin]
  · by_cases hu : t2 < t1 + 600 <;>
      simp [storeVerificationToken, consumeVerificationToken, cellGet, hconf, hwin, hu]
  · intro ch' t' htok
    unfold consumeVerificationToken
    by_cases hc : ch'.configured
    · rcases hused : cellGet t' ch'.usedCell with _ | v <;> simp [hc, htok, hused, cellGet]
    · simp [hc]
  · intro ch' t' hc
    simp [consumeVerificationToken, hc]

theorem consume_at_most_once_witness :
    (consumeVerificationToken 30 (storeVerificationToken 0 "tok_1" ⟨true, none, none⟩)).1 = some "tok_1"
    ∧ (consumeVerificationToken 90
        (consumeVerificationToken 30 (storeVerificationToken 0 "tok_1" ⟨true, none, none⟩)).2).1 = none
    ∧ (∀ (ch' : TokenChannel) (t' : Nat), ch'.tokenCell = none →
        (consumeVerificationToken t' ch').1 = none)
    ∧ (∀ (ch' : TokenChannel) (t' : Nat), ch'.configured = false →
        (consumeVerificationToken t' ch').1 = none)
  := consume_at_most_once ⟨true, none, none⟩ "tok_1" 0 30 90 (by decide) (by decide) (by decide)

/-! ## C8 — blocking rate-limiter acquire -/

theorem throttleOrWaitAux_denials (pre : List LimitRes) :
    ∀ (now : Int) (r : LimitRes) (rest : List LimitRes),
      (∀ q ∈ pre, q.ok = false) → r.ok = true →
      (throttleOrWaitAux (pre ++ r :: rest) now).2 = true
      ∧ (throttleOrWaitAux (pre ++ r :: rest) now).1.length = pre.length
      ∧ (∀ w ∈ (throttleOrWaitAux (pre ++ r :: rest) now).1, 250 ≤ w) := by
  induction pre with
  | nil =>
    intro now r rest _ hr
    simp [throttleOrWaitAux, hr]
  | cons q pre ih =>
    intro now r rest hpre hr
    have hq : q.ok = false := hpre q (by simp)
    have hpre' : ∀ p ∈ pre, p.ok = false := fun p hp => hpre p (by simp [hp])
    have spec := ih (now + max 250 (q.resetMs.getD (now + 1000) - now)) r rest hpre' hr
    simp only [List.cons_append, throttleOrWaitAux, hq, Bool.false_eq_true, if_false]
    refine ⟨spec.1, by simpa using spec.2.1, ?_⟩
    intro w hw
    simp only [List.mem_cons] at hw
    rcases hw with hw | hw
    · rw [hw]; exact le_max_left _ _
    · exact spec.2.2 w hw

/-- C8: `throttleOrWait` blocks rather than errors: it loops over the
counter's responses and returns granted as soon as one is `ok`, having
slept once per denial, each sleep being
`max(250, (resetMs ?? now + 1000) - now)` (so always ≥ 250, and exactly
`max 250 (reset - now)` when the denial carries a reset deadline); when
no counter backend is configured the limiter always answers `ok: true`,
so acquire returns immediately with no sleeping. -/
theorem throttle_blocks_until_granted (pre rest : List LimitRes) (now : Int) (r : LimitRes)
    (hpre : ∀ q ∈ pre, q.ok = false) (hr : r.ok = true) :
    (throttleOrWaitAux (pre ++ r :: rest) now).2 = true
    ∧ (throttleOrWaitAux (pre ++ r :: rest) now).1.length = pre.length
    ∧ (∀ w ∈ (throttleOrWaitAux (pre ++ r :: rest) now).1, 250 ≤ w)
    ∧ (∀ (q : LimitRes) (d : Int) (rest2 : List LimitRes) (now2 : Int),
        q.ok = false → q.resetMs = some d →
        (throttleOrWaitAux (q :: rest2) now2).1.head? = some (max 250 (d - now2)))
    ∧ (∀ (rest2 : List LimitRes) (now2 : Int),
        throttleOrWaitAux (noRedisLimitRes :: rest2) now2 = ([], true)) := by
  have spec := throttleOrWaitAux_denials pre now r rest hpre hr
  refine ⟨spec.1, spec.2.1, spec.2.2, ?_, ?_⟩
  · intro q d rest2 now2 hq hd
    simp [throttleOrWaitAux, hq, hd]
  · intro rest2 now2
    simp [throttleOrWaitAux, noRedisLimitRes]

theorem throttle_blocks_until_granted_witness :
    (throttleOrWaitAux ([⟨false, some 1000⟩, ⟨false, some 2000⟩] ++ ⟨true, none⟩ :: []) 0).2 = true
    ∧ (throttleOrWaitAux ([⟨false, some 1000⟩, ⟨false, some 2000⟩] ++ ⟨true, none⟩ :: []) 0).1.length
        = ([⟨false, some 1000⟩, ⟨false, some 2000⟩] : List LimitRes).length
    ∧ (∀ w ∈ (throttleOrWaitAux ([⟨false, some 1000⟩, ⟨false, some 2000⟩] ++ ⟨true, none⟩ :: []) 0).1,
        250 ≤ w)
    ∧ (∀ (q : LimitRes) (d : Int) (rest2 : List LimitRes) (now2 : Int),
        q.ok = false → q.resetMs = some d →
        (throttleOrWaitAux (q :: rest2) now2).1.head? = some (max 250 (d - now2)))
    ∧ (∀ (rest2 : List LimitRes) (now2 : Int),
        throttleOrWaitAux (noRedisLimitRes :: rest2) now2 = ([], true)) :=
  throttle_blocks_until_granted [⟨false, some 1000⟩, ⟨false, some 2000⟩] [] 0 ⟨true, none⟩
    (by decide) (by decide)

/-! ## C7 — bootstrap-path token redaction -/

/-- C7 counterexample: the claim says the log holds only the first 8 and
last 4 characters of the token for tokens of ANY length, but a 12-character
token is logged in full (the source redacts only when `tok.length > 12`). -/
theorem short_token_logged_in_full :
    (postWebhook ⟨none, none⟩ "\x7b\"verification_token\":\"tok_2025vrfy\"\x7d"
        (some (.obj [("verification_token", .str "tok_2025vrfy")])) "" "p1" "t0" []
        ⟨false, none, none⟩).logs
      = ["[notion] verification_token received: " ++ "tok_2025vrfy"]
    ∧ ("tok_2025vrfy" : String).length = 12 := by
  exact ⟨rfl, rfl⟩

/-- C7 amended: on the bootstrap path the Receiver logs exactly one line
holding the redacted token; the redaction keeps only the first 8 and last
4 characters for tokens longer than 12 characters (and is then strictly
shorter than any token of length ≥ 14), but tokens of 12 or fewer
characters are logged in full. -/
theorem bootstrap_token_redaction (cfg : WebhookConfig) (raw sig fid now : String)
    (s : Store) (ch : TokenChannel) (p : Json) (tok : String)
    (hlk : jsonLookup p "verification_token" = some (.str tok)) (hne : tok ≠ "") :
    (postWebhook cfg raw (some p) sig fid now s ch).logs
      = ["[notion] verification_token received: " ++ redactedToken tok]
    ∧ (tok.length ≤ 12 → redactedToken tok = tok)
    ∧ (12 < tok.length →
        redactedToken tok = jsSlice0 tok 8 ++ "…" ++ jsSliceLast tok 4)
    ∧ (14 ≤ tok.length →
        (jsSlice0 tok 8 ++ "…" ++ jsSliceLast tok 4).length < tok.length) := by
  have hboot : bootstrapTaken (some p) = true := by
    simp [bootstrapTaken, hlk, jsTruthyOpt, jsTruthy, hne]
  refine ⟨?_, ?_, ?_, ?_⟩
  · simp [postWebhook, hboot, hlk, jsToString]
  · intro hle
    simp [redactedToken, hle]
  · intro hgt
    have hnle : ¬ tok.length ≤ 12 := by omega
    simp [redactedToken, hnle]
  · intro hge
    show (jsSlice0 tok 8 ++ "…" ++ jsSliceLast tok 4).data.length < tok.data.length
    have hd : (jsSlice0 tok 8 ++ "…" ++ jsSliceLast tok 4).data
        = (tok.data.take 8 ++ ['…']) ++ tok.data.drop (tok.data.length - 4) := rfl
    rw [hd]
    simp only [List.length_append, List.length_take, List.length_drop, List.length_cons,
      List.length_nil, inf_eq_min, Nat.min_def]
    have hlen2 : 14 ≤ tok.data.length := hge
    split <;> omega

theorem bootstrap_token_redaction_witness :
    (postWebhook ⟨none, none⟩ "x" (some (.obj [("verification_token", .str "secret_token_ABCD")]))
        "" "p1" "t0" [] ⟨false, none, none⟩).logs
      = ["[notion] verification_token received: " ++ redactedToken "secret_token_ABCD"]
    ∧ (("secret_token_ABCD" : String).length ≤ 12 →
        redactedToken "secret_token_ABCD" = "secret_token_ABCD")
    ∧ (12 < ("secret_token_ABCD" : String).length →
        redactedToken "secret_token_ABCD"
          = jsSlice0 "secret_token_ABCD" 8 ++ "…" ++ jsSliceLast "secret_token_ABCD" 4)
    ∧ (14 ≤ ("secret_token_ABCD" : String).length →
        (jsSlice0 "secret_token_ABCD" 8 ++ "…" ++ jsSliceLast "secret_token_ABCD" 4).length
          < ("secret_token_ABCD" : String).length) :=
  bootstrap_token_redaction ⟨none, none⟩ "x" "" "p1" "t0" [] ⟨false, none, none⟩
    (.obj [("verification_token", .str "secret_token_ABCD")]) "secret_token_ABCD"
    (by rfl) (by decide)

/-! ## C9 — construction of a first-seen Event Record -/

theorem stripUndefined_no_undefined (props : List (String × Option PropValue)) :
    ∀ kv ∈ stripUndefined props, kv.2 ≠ none := by
  intro kv hkv
  have := List.of_mem_filter hkv
  simpa [Option.isSome_iff_ne_none] using this

/-- C9: for a first-seen event, the create-row request is built with
`Status = New`, `Needs human review = false`, and a log line recording the
ingestion time; after the strip pass no key carries an undefined value,
and an absent optional input leaves its key out of the request entirely. -/
theorem new_event_record_shape (p : EventParams) (now : String) :
    (stripUndefined (buildEventProperties p now)).lookup "Status" = some (some (.select "New"))
    ∧ (stripUndefined (buildEventProperties p now)).lookup "Needs human review"
        = some (some (.checkbox false))
    ∧ (stripUndefined (buildEventProperties p now)).lookup "Scipio log"
        = some (some (.richText
            ("Aqueduct: queued event " ++ p.eventId ++ " (" ++ p.type ++ ") at " ++ now)))
    ∧ (∀ kv ∈ stripUndefined (buildEventProperties p now), kv.2 ≠ none)
    ∧ (p.objectType = none →
        (stripUndefined (buildEventProperties p now)).lookup "Notion object type" = none)
    ∧ (p.objectId = none →
        (stripUndefined (buildEventProperties p now)).lookup "Notion object id" = none)
    ∧ (p.sourceUrl = none →
        (stripUndefined (buildEventProperties p now)).lookup "Source URL" = none)
    ∧ (writeEventToQueue [] "fresh" p now).map (fun r => (r.status, r.needsReview))
        = [("New", false)] := by
  refine ⟨?_, ?_, ?_, stripUndefined_no_undefined _, ?_, ?_, ?_, by simp [writeEventToQueue]⟩ <;>
  · rcases hot : p.objectType with _ | ot <;> rcases hoi : p.objectId with _ | oi <;>
      rcases hsu : p.sourceUrl with _ | su <;>
      simp [buildEventProperties, stripUndefined, ifTruthyStr, hot, hoi, hsu, List.lookup] <;>
      split_ifs <;> simp_all [List.lookup]

/-! ## C1 — bootstrap path vs. the Verification Token Channel -/

/-- C1 (code bug): on a webhook body carrying a `verification_token`, the
route echoes the token back but never calls `storeVerificationToken` —
the token channel is left untouched, so an admin `consume()` right after
the handshake (well inside any validity window) still returns absent,
although `consumeVerificationToken` is exactly what the admin route
calls and `storeVerificationToken` has no caller anywhere in the
repository. -/
theorem bootstrap_does_not_store_token :
    (postWebhook ⟨some "whsec_k", some "db_1"⟩
        "\x7b\"verification_token\":\"secret_vrfy_token_91\"\x7d"
        (some (.obj [("verification_token", .str "secret_vrfy_token_91")]))
        "" "p1" "t0" [] ⟨true, none, none⟩).resp
      = .echoToken (.str "secret_vrfy_token_91")
    ∧ (postWebhook ⟨some "whsec_k", some "db_1"⟩
        "\x7b\"verification_token\":\"secret_vrfy_token_91\"\x7d"
        (some (.obj [("verification_token", .str "secret_vrfy_token_91")]))
        "" "p1" "t0" [] ⟨true, none, none⟩).channel
      = ⟨true, none, none⟩
    ∧ (consumeVerificationToken 1
        (postWebhook ⟨some "whsec_k", some "db_1"⟩
          "\x7b\"verification_token\":\"secret_vrfy_token_91\"\x7d"
          (some (.obj [("verification_token", .str "secret_vrfy_token_91")]))
          "" "p1" "t0" [] ⟨true, none, none⟩).channel).1
      = none := by
  exact ⟨rfl, rfl, rfl⟩

/-! ## C2 — worker dedup keeps the earliest row -/

/-- C2: three queued rows share an `eventId` (given here in ascending
`created_time` order, which is also how the batch query returns them);
after one worker pass the earliest-created row is the keeper and ends in
`Needs human review` with the review flag set, while the other two end in
`Deduped` with the flag cleared and the keeper's identifier recorded in
their log. -/
theorem worker_dedup_keeps_earliest (a b c : Row)
    (hab : a.id ≠ b.id) (hac : a.id ≠ c.id) (hbc : b.id ≠ c.id)
    (haid : a.id ≠ "")
    (heb : b.eventId = a.eventId) (hec : c.eventId = a.eventId)
    (htrim : jsTrim a.eventId = a.eventId) (hene : a.eventId ≠ "")
    (hsa : a.status = "New") (hsb : b.status = "New") (hsc : c.status = "New")
    (hcab : a.created.data ≤ b.created.data) (hcbc : b.created.data ≤ c.created.data)
    (hcd1 : a.created ≠ b.created) (hcd2 : b.created ≠ c.created) (hcd3 : a.created ≠ c.created) :
    (runBatch noFail [a, b, c]).map (fun r => (r.id, r.status, r.needsReview, r.log))
      = [(a.id, "Needs human review", true,
          "Worker: no handler for type=" ++ a.type ++ ". Marked Needs human review."),
         (b.id, "Deduped", false,
          "Worker: deduped (keeper=" ++ a.id ++ ") for eventId=" ++ a.eventId),
         (c.id, "Deduped", false,
          "Worker: deduped (keeper=" ++ a.id ++ ") for eventId=" ++ a.eventId)] := by
  have hab' : b.id ≠ a.id := fun h => hab h.symm
  have hac' : c.id ≠ a.id := fun h => hac h.symm
  have hbc' : c.id ≠ b.id := fun h => hbc h.symm
  simp [runBatch, queryNewEvents, runBatchAux, processEventR, findByEventId, updatePage,
    handleRowFailure, noFail, List.insertionSort, List.orderedInsert,
    hab, hac, hbc, hab', hac', hbc', haid, heb, hec, htrim, hene, hsa, hsb, hsc,
    hcab, hcbc]

theorem worker_dedup_keeps_earliest_witness :
    (runBatch noFail
      [⟨"p1", "evt_7", "2024-01-01T00:00:00", "New", false, "", "page.updated"⟩,
       ⟨"p2", "evt_7", "2024-01-02T00:00:00", "New", false, "", "page.updated"⟩,
       ⟨"p3", "evt_7", "2024-01-03T00:00:00", "New", false, "", "page.updated"⟩]).map
        (fun r => (r.id, r.status, r.needsReview, r.log))
      = [(("p1" : String), ("Needs human review" : String), true,
          "Worker: no handler for type=" ++ ("page.updated" : String)
            ++ ". Marked Needs human review."),
         ("p2", "Deduped", false,
          "Worker: deduped (keeper=" ++ ("p1" : String) ++ ") for eventId=" ++ "evt_7"),
         ("p3", "Deduped", false,
          "Worker: deduped (keeper=" ++ ("p1" : String) ++ ") for eventId=" ++ "evt_7")] :=
  worker_dedup_keeps_earliest
    ⟨"p1", "evt_7", "2024-01-01T00:00:00", "New", false, "", "page.updated"⟩
    ⟨"p2", "evt_7", "2024-01-02T00:00:00", "New", false, "", "page.updated"⟩
    ⟨"p3", "evt_7", "2024-01-03T00:00:00", "New", false, "", "page.updated"⟩
    (by decide) (by decide) (by decide) (by decide) (by decide) (by decide)
    (by decide) (by decide) (by decide) (by decide) (by decide) (by decide) (by decide)
    (by decide) (by decide) (by decide)

/-! ## C6 / C10 — per-row failure isolation in the worker -/

theorem jsSlice0_length_le (s : String) (n : Nat) : (jsSlice0 s n).length ≤ n := by
  show (s.data.take n).length ≤ n
  exact List.length_take_le n s.data

/-- Oracle: processing of the row `pid` throws `msg` at its final
(`Needs human review`) patch; every other call succeeds — in particular
the catch-block `Error` patch succeeds. -/
def failAtNhrPatch (pid msg : String) : FailOracle :=
  ⟨fun p site => if p = pid ∧ site = 3 then some msg else none⟩

/-- Oracle: the row `pid` fails both at its final patch and at the
catch-block `Error` patch. -/
def failAtNhrAndErrorPatch (pid msg : String) : FailOracle :=
  ⟨fun p site => if p = pid ∧ (site = 3 ∨ site = 4) then some msg else none⟩

/-- C6 counterexample: the failure message is not *appended* to the
failing row's log — the `Error` patch PATCHes the `Scipio log` property
and so replaces it. A row whose log holds the ingestion line ends, after
its processing fails, with a log that is exactly the worker error line;
the previous content does not survive (it is not even a prefix of the
new log). -/
theorem worker_error_patch_replaces_log :
    (runBatch (failAtNhrPatch "w1" "boom")
        [⟨"w1", "ev1", "2024-01-01", "New", false,
          "Aqueduct: queued event ev1 (page.updated) at 2024-01-01", "page.updated"⟩]).map
        (fun r => r.log)
      = ["Worker: error: " ++ jsSlice0 "boom" 500]
    ∧ List.isPrefixOf
        ("Aqueduct: queued event ev1 (page.updated) at 2024-01-01" : String).data
        ("Worker: error: " ++ jsSlice0 "boom" 500).data = false := by
  exact ⟨by decide, by decide⟩

/-- C6 amended: in a batch of five `New` rows (ascending creation order,
distinct event ids), the third row's upstream patch call throws; the
failure is caught per-row: row 3 is patched to `Error` with the review
flag set and its log replaced by the failure text truncated to at most
500 characters (behind the fixed `Worker: error: ` prefix), and rows
1, 2, 4, 5 still reach their terminal `Needs human review` status. -/
theorem worker_batch_isolates_row_failure (r1 r2 r3 r4 r5 : Row) (msg : String)
    (i12 : r1.id ≠ r2.id) (i13 : r1.id ≠ r3.id) (i14 : r1.id ≠ r4.id) (i15 : r1.id ≠ r5.id)
    (i23 : r2.id ≠ r3.id) (i24 : r2.id ≠ r4.id) (i25 : r2.id ≠ r5.id)
    (i34 : r3.id ≠ r4.id) (i35 : r3.id ≠ r5.id) (i45 : r4.id ≠ r5.id)
    (e12 : r1.eventId ≠ r2.eventId) (e13 : r1.eventId ≠ r3.eventId)
    (e14 : r1.eventId ≠ r4.eventId) (e15 : r1.eventId ≠ r5.eventId)
    (e23 : r2.eventId ≠ r3.eventId) (e24 : r2.eventId ≠ r4.eventId)
    (e25 : r2.eventId ≠ r5.eventId) (e34 : r3.eventId ≠ r4.eventId)
    (e35 : r3.eventId ≠ r5.eventId) (e45 : r4.eventId ≠ r5.eventId)
    (t1 : jsTrim r1.eventId = r1.eventId) (t2 : jsTrim r2.eventId = r2.eventId)
    (t3 : jsTrim r3.eventId = r3.eventId) (t4 : jsTrim r4.eventId = r4.eventId)
    (t5 : jsTrim r5.eventId = r5.eventId)
    (n1 : r1.eventId ≠ "") (n2 : r2.eventId ≠ "") (n3 : r3.eventId ≠ "")
    (n4 : r4.eventId ≠ "") (n5 : r5.eventId ≠ "")
    (s1 : r1.status = "New") (s2 : r2.status = "New") (s3 : r3.status = "New")
    (s4 : r4.status = "New") (s5 : r5.status = "New")
    (c12 : r1.created.data ≤ r2.created.data) (c23 : r2.created.data ≤ r3.created.data)
    (c34 : r3.created.data ≤ r4.created.data) (c45 : r4.created.data ≤ r5.created.data) :
    (runBatch (failAtNhrPatch r3.id msg) [r1, r2, r3, r4, r5]).map
        (fun r => (r.id, r.status, r.needsReview, r.log))
      = [(r1.id, "Needs human review", true,
          "Worker: no handler for type=" ++ r1.type ++ ". Marked Needs human review."),
         (r2.id, "Needs human review", true,
          "Worker: no handler for type=" ++ r2.type ++ ". Marked Needs human review."),
         (r3.id, "Error", true, "Worker: error: " ++ jsSlice0 msg 500),
         (r4.id, "Needs human review", true,
          "Worker: no handler for type=" ++ r4.type ++ ". Marked Needs human review."),
         (r5.id, "Needs human review", true,
          "Worker: no handler for type=" ++ r5.type ++ ". Marked Needs human review.")]
    ∧ ("Worker: error: " ++ jsSlice0 msg 500).length ≤ 15 + 500 := by
  have i21 : r2.id ≠ r1.id := fun h => i12 h.symm
  have i31 : r3.id ≠ r1.id := fun h => i13 h.symm
  have i41 : r4.id ≠ r1.id := fun h => i14 h.symm
  have i51 : r5.id ≠ r1.id := fun h => i15 h.symm
  have i32 : r3.id ≠ r2.id := fun h => i23 h.symm
  have i42 : r4.id ≠ r2.id := fun h => i24 h.symm
  have i52 : r5.id ≠ r2.id := fun h => i25 h.symm
  have i43 : r4.id ≠ r3.id := fun h => i34 h.symm
  have i53 : r5.id ≠ r3.id := fun h => i35 h.symm
  have i54 : r5.id ≠ r4.id := fun h => i45 h.symm
  have e21 : r2.eventId ≠ r1.eventId := fun h => e12 h.symm
  have e31 : r3.eventId ≠ r1.eventId := fun h => e13 h.symm
  have e41 : r4.eventId ≠ r1.eventId := fun h => e14 h.symm
  have e51 : r5.eventId ≠ r1.eventId := fun h => e15 h.symm
  have e32 : r3.eventId ≠ r2.eventId := fun h => e23 h.symm
  have e42 : r4.eventId ≠ r2.eventId := fun h => e24 h.symm
  have e52 : r5.eventId ≠ r2.eventId := fun h => e25 h.symm
  have e43 : r4.eventId ≠ r3.eventId := fun h => e34 h.symm
  have e53 : r5.eventId ≠ r3.eventId := fun h => e35 h.symm
  have e54 : r5.eventId ≠ r4.eventId := fun h => e45 h.symm
  constructor
  · simp [runBatch, queryNewEvents, runBatchAux, processEventR, findByEventId, updatePage,
      handleRowFailure, failAtNhrPatch, List.insertionSort, List.orderedInsert,
      i12, i13, i14, i15, i23, i24, i25, i34, i35, i45,
      i21, i31, i41, i51, i32, i42, i52, i43, i53, i54,
      e12, e13, e14, e15, e23, e24, e25, e34, e35, e45,
      e21, e31, e41, e51, e32, e42, e52, e43, e53, e54,
      t1, t2, t3, t4, t5, n1, n2, n3, n4, n5, s1, s2, s3, s4, s5,
      c12, c23, c34, c45]
  · have h15 : ("Worker: error: " : String).length = 15 := rfl
    have hsl : (jsSlice0 msg 500).data.length ≤ 500 := jsSlice0_length_le msg 500
    show ("Worker: error: " ++ jsSlice0 msg 500).data.length ≤ 15 + 500
    have hd : ("Worker: error: " ++ jsSlice0 msg 500).data
        = ("Worker: error: " : String).data ++ (jsSlice0 msg 500).data := rfl
    rw [hd, List.length_append]
    have h15d : ("Worker: error: " : String).data.length = 15 := rfl
    omega

theorem worker_batch_isolates_row_failure_witness :
    (runBatch (failAtNhrPatch (Row.mk "w3" "ev3" "2024-01-03" "New" false "" "comment.created").id "Notion API error 500: boom")
      [⟨"w1", "ev1", "2024-01-01", "New", false, "", "page.updated"⟩,
       ⟨"w2", "ev2", "2024-01-02", "New", false, "", "page.updated"⟩,
       ⟨"w3", "ev3", "2024-01-03", "New", false, "", "comment.created"⟩,
       ⟨"w4", "ev4", "2024-01-04", "New", false, "", "page.updated"⟩,
       ⟨"w5", "ev5", "2024-01-05", "New", false, "", "page.updated"⟩]).map
        (fun r => (r.id, r.status, r.needsReview, r.log))
      = [(("w1" : String), ("Needs human review" : String), true,
          "Worker: no handler for type=" ++ ("page.updated" : String) ++ ". Marked Needs human review."),
         ("w2", "Needs human review", true,
          "Worker: no handler for type=" ++ "page.updated" ++ ". Marked Needs human review."),
         ("w3", "Error", true, "Worker: error: " ++ jsSlice0 "Notion API error 500: boom" 500),
         ("w4", "Needs human review", true,
          "Worker: no handler for type=" ++ "page.updated" ++ ". Marked Needs human review."),
         ("w5", "Needs human review", true,
          "Worker: no handler for type=" ++ "page.updated" ++ ". Marked Needs human review.")]
    ∧ ("Worker: error: " ++ jsSlice0 "Notion API error 500: boom" 500).length ≤ 15 + 500 :=
  worker_batch_isolates_row_failure
    ⟨"w1", "ev1", "2024-01-01", "New", false, "", "page.updated"⟩
    ⟨"w2", "ev2", "2024-01-02", "New", false, "", "page.updated"⟩
    ⟨"w3", "ev3", "2024-01-03", "New", false, "", "comment.created"⟩
    ⟨"w4", "ev4", "2024-01-04", "New", false, "", "page.updated"⟩
    ⟨"w5", "ev5", "2024-01-05", "New", false, "", "page.updated"⟩
    "Notion API error 500: boom"
    (by decide) (by decide) (by decide) (by decide) (by decide) (by decide) (by decide)
    (by decide) (by decide) (by decide) (by decide) (by decide) (by decide) (by decide)
    (by decide) (by decide) (by decide) (by decide) (by decide) (by decide) (by decide)
    (by decide) (by decide) (by decide) (by decide) (by decide) (by decide) (by decide)
    (by decide) (by decide) (by decide) (by decide) (by decide) (by decide) (by decide)
    (by decide) (by decide) (by decide) (by decide)

/-- C10: when a row's processing fails and the catch-block `Error` patch
for it fails too, the second failure is swallowed: the row stays in the
last status it reached (`In Progress`), no row records an `Error`
status, and the batch still processes the remaining rows. -/
theorem worker_swallows_error_patch_failure (q1 q2 : Row) (msg : String)
    (hid : q1.id ≠ q2.id) (hev : q1.eventId ≠ q2.eventId)
    (ht1 : jsTrim q1.eventId = q1.eventId) (ht2 : jsTrim q2.eventId = q2.eventId)
    (hn1 : q1.eventId ≠ "") (hn2 : q2.eventId ≠ "")
    (hs1 : q1.status = "New") (hs2 : q2.status = "New")
    (hc : q1.created.data ≤ q2.created.data) :
    (runBatch (failAtNhrAndErrorPatch q1.id msg) [q1, q2]).map
        (fun r => (r.id, r.status, r.needsReview, r.log))
      = [(q1.id, "In Progress", q1.needsReview, q1.log),
         (q2.id, "Needs human review", true,
          "Worker: no handler for type=" ++ q2.type ++ ". Marked Needs human review.")]
    ∧ (runBatch (failAtNhrAndErrorPatch q1.id msg) [q1, q2]).filter
        (fun r => r.status == "Error") = [] := by
  have hid' : q2.id ≠ q1.id := fun h => hid h.symm
  have hev' : q2.eventId ≠ q1.eventId := fun h => hev h.symm
  constructor <;>
    simp [runBatch, queryNewEvents, runBatchAux, processEventR, findByEventId, updatePage,
      handleRowFailure, failAtNhrAndErrorPatch, List.insertionSort, List.orderedInsert,
      hid, hid', hev, hev', ht1, ht2, hn1, hn2, hs1, hs2, hc]

theorem worker_swallows_error_patch_failure_witness :
    (runBatch (failAtNhrAndErrorPatch (Row.mk "x1" "eva" "2024-02-01" "New" false "" "page.updated").id "patch failed")
        [⟨"x1", "eva", "2024-02-01", "New", false, "", "page.updated"⟩,
         ⟨"x2", "evb", "2024-02-02", "New", false, "", "page.updated"⟩]).map
        (fun r => (r.id, r.status, r.needsReview, r.log))
      = [(("x1" : String), ("In Progress" : String), false, ""),
         ("x2", "Needs human review", true,
          "Worker: no handler for type=" ++ ("page.updated" : String) ++ ". Marked Needs human review.")]
    ∧ (runBatch (failAtNhrAndErrorPatch (Row.mk "x1" "eva" "2024-02-01" "New" false "" "page.updated").id "patch failed")
        [⟨"x1", "eva", "2024-02-01", "New", false, "", "page.updated"⟩,
         ⟨"x2", "evb", "2024-02-02", "New", false, "", "page.updated"⟩]).filter
        (fun r => r.status == "Error") = [] :=
  worker_swallows_error_patch_failure
    ⟨"x1", "eva", "2024-02-01", "New", false, "", "page.updated"⟩
    ⟨"x2", "evb", "2024-02-02", "New", false, "", "page.updated"⟩
    "patch failed"
    (by decide) (by decide) (by decide) (by decide) (by decide) (by decide)
    (by decide) (by decide) (by decide)

/-! ## C3 — webhook-path idempotence by eventId -/

/-- C3: submitting the same `eventId` twice through the webhook path
(valid signatures, well-formed envelopes, an initial store with no row
for that id) leaves exactly one non-`Deduped` Event Record: the second
call answers `deduped` and writes nothing. -/
theorem webhook_dedup_idempotent
    (cfg : WebhookConfig) (secret raw1 raw2 sig1 sig2 fid1 fid2 now1 now2 db ev : String)
    (p1 p2 : Json) (s0 : Store) (ch : TokenChannel)
    (hsecret : cfg.webhookVerificationToken = some secret)
    (hdb : cfg.eventsQueueDbId = some db)
    (hb1 : bootstrapTaken (some p1) = false)
    (hb2 : bootstrapTaken (some p2) = false)
    (hid1 : jsonStrField p1 "id" = some ev)
    (hid2 : jsonStrField p2 "id" = some ev)
    (hev : ev ≠ "")
    (hsg1 : sig1 ≠ "") (hts1 : timingSafeEqualHex sig1 (hmacSha256Hex secret raw1) = true)
    (hsg2 : sig2 ≠ "") (hts2 : timingSafeEqualHex sig2 (hmacSha256Hex secret raw2) = true)
    (hfresh : ∀ r ∈ s0, r.eventId ≠ ev) :
    (postWebhook cfg raw2 (some p2) sig2 fid2 now2
        (postWebhook cfg raw1 (some p1) sig1 fid1 now1 s0 ch).store ch).resp = .dedupedOk
    ∧ (postWebhook cfg raw2 (some p2) sig2 fid2 now2
        (postWebhook cfg raw1 (some p1) sig1 fid1 now1 s0 ch).store ch).store
      = (postWebhook cfg raw1 (some p1) sig1 fid1 now1 s0 ch).store
    ∧ ((postWebhook cfg raw1 (some p1) sig1 fid1 now1 s0 ch).store.filter
        (fun r => r.eventId == ev && !(r.status == "Deduped"))).length = 1 := by
  have hnew : eventExists s0 ev = false := eventExists_eq_false s0 ev hfresh
  have hstore1 : (postWebhook cfg raw1 (some p1) sig1 fid1 now1 s0 ch).store
      = s0 ++ [{ id := fid1, eventId := ev, created := now1, status := "New",
                 needsReview := false,
                 log := "Aqueduct: queued event " ++ ev ++ " ("
                        ++ ((jsonStrField p1 "type").getD "Other") ++ ") at " ++ now1,
                 type := (jsonStrField p1 "type").getD "Other" }] := by
    simp [postWebhook, hb1, hsecret, hsg1, hts1, hdb, hid1, hev, hnew, writeEventToQueue]
  obtain ⟨row, hrow, hrowev, hrowst⟩ :
      ∃ row, (postWebhook cfg raw1 (some p1) sig1 fid1 now1 s0 ch).store = s0 ++ [row]
        ∧ row.eventId = ev ∧ row.status = "New" := ⟨_, hstore1, rfl, rfl⟩
  have hex2 : eventExists (s0 ++ [row]) ev = true :=
    eventExists_eq_true _ ev row (by simp) hrowev
  refine ⟨?_, ?_, ?_⟩
  · rw [hrow]
    simp [postWebhook, hb2, hsecret, hsg2, hts2, hdb, hid2, hev, hex2]
  · rw [hrow]
    simp [postWebhook, hb2, hsecret, hsg2, hts2, hdb, hid2, hev, hex2]
  · rw [hrow, List.filter_append]
    have hnil : s0.filter (fun r => r.eventId == ev && !(r.status == "Deduped")) = [] := by
      rw [List.filter_eq_nil_iff]
      intro r hr
      simp [hfresh r hr]
    rw [hnil]
    simp [hrowev, hrowst]

theorem webhook_dedup_idempotent_witness :
    (postWebhook ⟨some "whsec_demo", some "db_1"⟩ "\x7b\"id\":\"evt_1\"\x7d"
        (some (.obj [("id", .str "evt_1")]))
        (hmacSha256Hex "whsec_demo" "\x7b\"id\":\"evt_1\"\x7d") "p2" "t2"
        (postWebhook ⟨some "whsec_demo", some "db_1"⟩ "\x7b\"id\":\"evt_1\"\x7d"
          (some (.obj [("id", .str "evt_1")]))
          (hmacSha256Hex "whsec_demo" "\x7b\"id\":\"evt_1\"\x7d") "p1" "t1" []
          ⟨false, none, none⟩).store
        ⟨false, none, none⟩).resp = .dedupedOk
    ∧ (postWebhook ⟨some "whsec_demo", some "db_1"⟩ "\x7b\"id\":\"evt_1\"\x7d"
        (some (.obj [("id", .str "evt_1")]))
        (hmacSha256Hex "whsec_demo" "\x7b\"id\":\"evt_1\"\x7d") "p2" "t2"
        (postWebhook ⟨some "whsec_demo", some "db_1"⟩ "\x7b\"id\":\"evt_1\"\x7d"
          (some (.obj [("id", .str "evt_1")]))
          (hmacSha256Hex "whsec_demo" "\x7b\"id\":\"evt_1\"\x7d") "p1" "t1" []
          ⟨false, none, none⟩).store
        ⟨false, none, none⟩).store
      = (postWebhook ⟨some "whsec_demo", some "db_1"⟩ "\x7b\"id\":\"evt_1\"\x7d"
          (some (.obj [("id", .str "evt_1")]))
          (hmacSha256Hex "whsec_demo" "\x7b\"id\":\"evt_1\"\x7d") "p1" "t1" []
          ⟨false, none, none⟩).store
    ∧ ((postWebhook ⟨some "whsec_demo", some "db_1"⟩ "\x7b\"id\":\"evt_1\"\x7d"
          (some (.obj [("id", .str "evt_1")]))
          (hmacSha256Hex "whsec_demo" "\x7b\"id\":\"evt_1\"\x7d") "p1" "t1" []
          ⟨false, none, none⟩).store.filter
        (fun r => r.eventId == "evt_1" && !(r.status == "Deduped"))).length = 1 :=
  webhook_dedup_idempotent ⟨some "whsec_demo", some "db_1"⟩ "whsec_demo"
    "\x7b\"id\":\"evt_1\"\x7d" "\x7b\"id\":\"evt_1\"\x7d"
    (hmacSha256Hex "whsec_demo" "\x7b\"id\":\"evt_1\"\x7d")
    (hmacSha256Hex "whsec_demo" "\x7b\"id\":\"evt_1\"\x7d")
    "p1" "p2" "t1" "t2" "db_1" "evt_1"
    (.obj [("id", .str "evt_1")]) (.obj [("id", .str "evt_1")]) [] ⟨false, none, none⟩
    rfl rfl rfl rfl rfl rfl (by decide)
    (hmacSha256Hex_ne_empty _ _) (timingSafeEqualHex_self _)
    (hmacSha256Hex_ne_empty _ _) (timingSafeEqualHex_self _)
    (by simp)

/-! ## C4 — the signature gate -/

set_option maxRecDepth 100000 in
/-- C4 counterexample: the gate compares hex *decodings*, so the
uppercase rendering of the correct digest — a string different from the
computed lowercase hex digest — is accepted (the request proceeds to the
queue write and answers `ok`), refuting "any signature differing from
the computed HMAC hex digest is rejected". -/
theorem uppercase_signature_accepted :
    upperHex (hmacSha256Hex "whsec_demo" "\x7b\"id\":\"evt_1\"\x7d")
      ≠ hmacSha256Hex "whsec_demo" "\x7b\"id\":\"evt_1\"\x7d"
    ∧ (postWebhook ⟨some "whsec_demo", some "db_1"⟩ "\x7b\"id\":\"evt_1\"\x7d"
        (some (.obj [("id", .str "evt_1")]))
        (upperHex (hmacSha256Hex "whsec_demo" "\x7b\"id\":\"evt_1\"\x7d"))
        "p1" "t1" [] ⟨false, none, none⟩).resp = .ok :=
  ⟨by decide, by rfl⟩

/-- C4 amended: with a configured secret and off the bootstrap path, the
route computes HMAC-SHA-256 over the exact raw body with the secret and
rejects as unauthorized exactly the requests whose signature is missing
or whose hex decoding (Node `Buffer` semantics) differs from the digest's
bytes; in particular the identical hex digest string is always accepted,
but so is any differently-written signature that decodes to the same
bytes. -/
theorem signature_gate_accepts_iff (cfg : WebhookConfig) (secret raw sig fid now : String)
    (parsed : Option Json) (s : Store) (ch : TokenChannel)
    (hsecret : cfg.webhookVerificationToken = some secret)
    (hboot : bootstrapTaken parsed = false) :
    ((postWebhook cfg raw parsed sig fid now s ch).resp = .invalidSignature
      ↔ (sig = "" ∨ nodeHexDecode sig ≠ nodeHexDecode (hmacSha256Hex secret raw)))
    ∧ (postWebhook cfg raw parsed (hmacSha256Hex secret raw) fid now s ch).resp
        ≠ .invalidSignature := by
  have main : ∀ sg : String,
      ((postWebhook cfg raw parsed sg fid now s ch).resp = .invalidSignature
        ↔ (sg = "" ∨ nodeHexDecode sg ≠ nodeHexDecode (hmacSha256Hex secret raw))) := by
    intro sg
    by_cases hgate : sg = "" ∨ timingSafeEqualHex sg (hmacSha256Hex secret raw) = false
    · have hresp : (postWebhook cfg raw parsed sg fid now s ch).resp = .invalidSignature := by
        simp [postWebhook, hboot, hsecret, hgate]
      rw [hresp]
      simp only [true_iff]
      rcases hgate with h | h
      · exact Or.inl h
      · refine Or.inr (fun hEq => ?_)
        have := (timingSafeEqualHex_eq_true_iff sg (hmacSha256Hex secret raw)).mpr hEq
        rw [this] at h
        cases h
    · have hresp : (postWebhook cfg raw parsed sg fid now s ch).resp ≠ .invalidSignature := by
        rcases parsed with _ | payload
        · simp [postWebhook, bootstrapTaken, hsecret, hgate]
        · rcases hdb : cfg.eventsQueueDbId with _ | db
          · simp [postWebhook, hboot, hsecret, hgate, hdb]
          · rcases hidf : jsonStrField payload "id" with _ | ev
            · simp [postWebhook, hboot, hsecret, hgate, hdb, hidf]
            · by_cases hev : ev = ""
              · simp [postWebhook, hboot, hsecret, hgate, hdb, hidf, hev]
              · by_cases hexist : eventExists s ev = true
                · simp [postWebhook, hboot, hsecret, hgate, hdb, hidf, hev, hexist]
                · simp [postWebhook, hboot, hsecret, hgate, hdb, hidf, hev, hexist]
      refine iff_of_false hresp ?_
      push_neg at hgate ⊢
      refine ⟨hgate.1, ?_⟩
      have := hgate.2
      rcases hb : timingSafeEqualHex sg (hmacSha256Hex secret raw) with _ | _
      · exact absurd hb this
      · exact (timingSafeEqualHex_eq_true_iff sg (hmacSha256Hex secret raw)).mp hb
  refine ⟨main sig, fun hcontra => ?_⟩
  rw [main (hmacSha256Hex secret raw)] at hcontra
  rcases hcontra with h | h
  · exact hmacSha256Hex_ne_empty secret raw h
  · exact h rfl

theorem signature_gate_accepts_iff_witness :
    (((postWebhook ⟨some "whsec_demo", some "db_1"⟩ "payload-bytes" none "" "p1" "t1" []
          ⟨false, none, none⟩).resp = .invalidSignature)
      ↔ (("" : String) = ""
          ∨ nodeHexDecode "" ≠ nodeHexDecode (hmacSha256Hex "whsec_demo" "payload-bytes")))
    ∧ (postWebhook ⟨some "whsec_demo", some "db_1"⟩ "payload-bytes" none
        (hmacSha256Hex "whsec_demo" "payload-bytes") "p1" "t1" []
        ⟨false, none, none⟩).resp ≠ .invalidSignature :=
  signature_gate_accepts_iff ⟨some "whsec_demo", some "db_1"⟩ "whsec_demo" "payload-bytes"
    "" "p1" "t1" none [] ⟨false, none, none⟩ rfl rfl

theorem new_event_record_shape_witness :
    (stripUndefined (buildEventProperties ⟨"page.updated", "evt_9", none, none, none, "\x7b\x7d"⟩
        "2024-03-01T00:00:00Z")).lookup "Status" = some (some (.select "New"))
    ∧ (stripUndefined (buildEventProperties ⟨"page.updated", "evt_9", none, none, none, "\x7b\x7d"⟩
        "2024-03-01T00:00:00Z")).lookup "Needs human review" = some (some (.checkbox false))
    ∧ (stripUndefined (buildEventProperties ⟨"page.updated", "evt_9", none, none, none, "\x7b\x7d"⟩
        "2024-03-01T00:00:00Z")).lookup "Scipio log"
      = some (some (.richText
          ("Aqueduct: queued event " ++ "evt_9" ++ " (" ++ "page.updated" ++ ") at "
            ++ "2024-03-01T00:00:00Z")))
    ∧ (∀ kv ∈ stripUndefined (buildEventProperties ⟨"page.updated", "evt_9", none, none, none, "\x7b\x7d"⟩
        "2024-03-01T00:00:00Z"), kv.2 ≠ none)
    ∧ ((⟨"page.updated", "evt_9", none, none, none, "\x7b\x7d"⟩ : EventParams).objectType = none →
        (stripUndefined (buildEventProperties ⟨"page.updated", "evt_9", none, none, none, "\x7b\x7d"⟩
          "2024-03-01T00:00:00Z")).lookup "Notion object type" = none)
    ∧ ((⟨"page.updated", "evt_9", none, none, none, "\x7b\x7d"⟩ : EventParams).objectId = none →
        (stripUndefined (buildEventProperties ⟨"page.updated", "evt_9", none, none, none, "\x7b\x7d"⟩
          "2024-03-01T00:00:00Z")).lookup "Notion object id" = none)
    ∧ ((⟨"page.updated", "evt_9", none, none, none, "\x7b\x7d"⟩ : EventParams).sourceUrl = none →
        (stripUndefined (buildEventProperties ⟨"page.updated", "evt_9", none, none, none, "\x7b\x7d"⟩
          "2024-03-01T00:00:00Z")).lookup "Source URL" = none)
    ∧ (writeEventToQueue [] "fresh" ⟨"page.updated", "evt_9", none, none, none, "\x7b\x7d"⟩
        "2024-03-01T00:00:00Z").map (fun r => (r.status, r.needsReview))
      = [(("New" : String), false)] :=
  new_event_record_shape ⟨"page.updated", "evt_9", none, none, none, "\x7b\x7d"⟩
    "2024-03-01T00:00:00Z"
